import Mathlib

/-!
Verification of the Weave Thread Integrity Ledger and Anchoring Subsystem
against its HTTP boundary code (`src/api/src/routes/domere.ts`, the Mund
routes, and the API-key middleware) and, where the service implementation
is not part of the sources, against models built from the specification.

The embedding is shallow: each Express route handler becomes a pure Lean
function from the (typed) request body to either an immediate rejection
(the validation branch) or the arguments forwarded to the service, and a
second stage turns the service outcome into the final HTTP response,
mirroring the uniform `try { ... } catch { res.status(500) }` skeleton of
every route.
-/

namespace Weave

/-! ## JSON-ish response bodies

Every error response in the routes is `res.status(s).json({ error: msg })`:
an object with string fields. We model such bodies as association lists of
string keys to string values. -/

abbrev ErrBody := List (String × String)

/-- The six machine-readable error kinds of the spec's section-7 taxonomy. -/
inductive ErrKind where
  | validationError
  | notFound
  | conflict
  | integrityViolation
  | adapterError
  | internalError
deriving DecidableEq, Repr

/-- A service-raised error: a taxonomy kind plus the message that
`String(error)` would render in the route's catch block. -/
structure ServiceError where
  kind : ErrKind
  msg : String
deriving DecidableEq, Repr

/-- The spelled-out names of the section-7 taxonomy kinds. -/
def taxonomyKinds : List String :=
  ["ValidationError", "NotFound", "Conflict",
   "IntegrityViolation", "AdapterError", "InternalError"]

/-- A body carries a machine-readable error kind when some field's key or
value is one of the section-7 taxonomy names. -/
def carriesErrorKind (b : ErrBody) : Prop :=
  ∃ p ∈ b, p.1 ∈ taxonomyKinds ∨ p.2 ∈ taxonomyKinds

instance (b : ErrBody) : Decidable (carriesErrorKind b) := by
  unfold carriesErrorKind; infer_instance

/-! ## Route skeleton

Each handler first runs its inline validation; on failure it responds
immediately (the `return res.status(400).json(...)` line) and the service
is never invoked; on success it forwards the extracted arguments to the
service call. -/

/-- First stage of a route: either an immediate rejection (status, body),
or the arguments forwarded to the service. `forward` is the record that
the underlying service operation is invoked with exactly those
arguments. -/
inductive Step (α : Type) where
  | reject (status : Nat) (body : ErrBody)
  | forward (args : α)
deriving DecidableEq, Repr

/-- Final HTTP result of a route: `res.json(result)` (status 200) or an
error response. -/
inductive RouteResult (β : Type) where
  | success (status : Nat) (value : β)
  | failure (status : Nat) (body : ErrBody)
deriving DecidableEq, Repr

def RouteResult.status : RouteResult β → Nat
  | .success s _ => s
  | .failure s _ => s

/-- Second stage, shared verbatim by every route in `domere.ts` and the
Mund routes: a rejected step responds as rejected; a forwarded step awaits
the service and answers `res.json(result)` on success, and
`res.status(500).json({ error: String(error) })` on ANY thrown error,
regardless of its kind. -/
def completeRoute (step : Step α) (svc : Except ServiceError β) : RouteResult β :=
  match step with
  | .reject s b => .failure s b
  | .forward _ =>
    match svc with
    | .ok v => .success 200 v
    | .error e => .failure 500 [("error", e.msg)]

/-! ## JavaScript truthiness at the boundary

Request-body fields are modelled as `Option` values (`none` = absent).
`!s` on a string is true exactly for the empty string; `!a` on an array is
always false — even for an empty array, which is truthy in JavaScript. -/

/-- JS falsiness of an optional string field: absent or empty. -/
def strFalsy : Option String → Bool
  | none => true
  | some s => s = ""

/-- JS falsiness of an optional array field: only absence is falsy; an
empty array is truthy. -/
def arrFalsy : Option (List α) → Bool
  | none => true
  | some _ => false

/-! ## POST /api/v1/domere/threads (create thread) -/

structure CreateBody where
  origin_type : Option String
  origin_identity : Option String
  intent : Option String
  constraints : Option (List String)
  metadata : Option ErrBody
deriving DecidableEq, Repr

structure CreateArgs where
  origin_type : String
  origin_identity : String
  intent : String
  constraints : Option (List String)
  metadata : Option ErrBody
deriving DecidableEq, Repr

def createMsg : ErrBody :=
  [("error", "origin_type, origin_identity, and intent are required")]

/-- `if (!origin_type || !origin_identity || !intent) return 400` then
`domere.createThread({...})`. -/
def createStep (b : CreateBody) : Step CreateArgs :=
  if strFalsy b.origin_type || strFalsy b.origin_identity || strFalsy b.intent then
    .reject 400 createMsg
  else
    match b.origin_type, b.origin_identity, b.intent with
    | some ot, some oi, some it =>
        .forward ⟨ot, oi, it, b.constraints, b.metadata⟩
    | _, _, _ => .reject 400 createMsg

/-! ## POST /api/v1/domere/threads/:id/hops (add hop) -/

structure AddHopBody where
  agent_id : Option String
  agent_type : Option String
  received_intent : Option String
  actions : Option (List String)
deriving DecidableEq, Repr

structure AddHopArgs where
  thread_id : String
  agent_id : String
  agent_type : String
  received_intent : String
  actions : List String
deriving DecidableEq, Repr

def addHopMsg : ErrBody :=
  [("error", "agent_id, agent_type, received_intent, and actions are required")]

/-- `if (!agent_id || !agent_type || !received_intent || !actions)` gives
400; otherwise `domere.addHop({thread_id: req.params.id, ...})`. -/
def addHopStep (id : String) (b : AddHopBody) : Step AddHopArgs :=
  if strFalsy b.agent_id || strFalsy b.agent_type ||
     strFalsy b.received_intent || arrFalsy b.actions then
    .reject 400 addHopMsg
  else
    match b.agent_id, b.agent_type, b.received_intent, b.actions with
    | some ai, some aty, some ri, some acts =>
        .forward ⟨id, ai, aty, ri, acts⟩
    | _, _, _, _ => .reject 400 addHopMsg

/-! ## POST /api/v1/domere/threads/:id/close -/

structure CloseArgs where
  thread_id : String
  outcome : String
deriving DecidableEq, Repr

def closeMsg : ErrBody :=
  [("error", "outcome is required (success, failure, abandoned)")]

/-- `if (!outcome) return 400` then `domere.closeThread(req.params.id,
outcome)` — the outcome string is forwarded as-is, with no check against
the {success, failure, abandoned} enumeration. -/
def closeStep (id : String) (outcome : Option String) : Step CloseArgs :=
  if strFalsy outcome then .reject 400 closeMsg
  else
    match outcome with
    | some o => .forward ⟨id, o⟩
    | none => .reject 400 closeMsg

/-! ## GET /api/v1/domere/threads/:id — no validation, always forwards. -/

def getThreadStep (id : String) : Step String := .forward id

/-! ## POST /api/v1/mund/scan -/

structure ScanArgs where
  content : String
  scan_types : Option (List String)
deriving DecidableEq, Repr

def scanMsg : ErrBody := [("error", "content is required")]

/-- `if (!content) return 400` then `mund.scan(content, scan_types)`. -/
def scanStep (content : Option String) (scan_types : Option (List String)) :
    Step ScanArgs :=
  if strFalsy content then .reject 400 scanMsg
  else
    match content with
    | some c => .forward ⟨c, scan_types⟩
    | none => .reject 400 scanMsg

/-! ## POST /api/v1/domere/anchor/submit -/

structure SubmitArgs where
  network : String
  signed_transaction : String
deriving DecidableEq, Repr

def submitMsg : ErrBody :=
  [("error", "network and signed_transaction are required")]

/-- `if (!network || !signed_transaction) return 400` then
`domere.submitAnchor(network, signed_transaction)`. -/
def submitStep (network signed_transaction : Option String) : Step SubmitArgs :=
  if strFalsy network || strFalsy signed_transaction then .reject 400 submitMsg
  else
    match network, signed_transaction with
    | some n, some t => .forward ⟨n, t⟩
    | _, _ => .reject 400 submitMsg

/-! ## Chain Engine and Thread Ledger

The `DomereService` implementation (chain construction, verification,
thread lifecycle) is not among the sources — the routes are its only
callers here — so the following definitions are modelled from the spec
(sections 3, 4.1, 4.3). -/

/-- Modelled from the spec: the hash function `H` behind
`hash = H(prev_hash ‖ canonical_encode(...))`. The spec treats `H` as an
opaque cryptographic hash; any fixed deterministic function satisfies the
chain-engine contract, so we use a 64-bit rolling hash over the input
string. -/
def hashStr (s : String) : Nat :=
  s.foldl (fun h c => (h * 31 + c.toNat) % (2 ^ 64)) 5381

/-- Modelled from the spec: the genesis head hash, "a fixed well-known
constant, e.g. hash of the empty string". -/
def genesisHash : Nat := hashStr ""

/-- The per-hop fields covered by `canonical_encode`. -/
structure HopFields where
  agent_id : String
  agent_type : String
  received_intent : String
  actions : List String
  timestamp : Nat
deriving DecidableEq, Repr

/-- Modelled from the spec: canonical encoding with fixed field order
(sequence_number, agent_id, agent_type, received_intent, actions,
timestamp) and fixed formatting. -/
def canonicalEncode (seq : Nat) (f : HopFields) : String :=
  toString seq ++ "|" ++ f.agent_id ++ "|" ++ f.agent_type ++ "|" ++
    f.received_intent ++ "|" ++ String.intercalate "," f.actions ++ "|" ++
    toString f.timestamp

/-- Modelled from the spec: the Chain Engine's pure `append`:
`H(prev_hash ‖ canonical_encode(sequence_number, ..., timestamp))`. -/
def chainHash (prev : Nat) (seq : Nat) (f : HopFields) : Nat :=
  hashStr (toString prev ++ "||" ++ canonicalEncode seq f)

/-- A stored hop: 0-based sequence number, its fields, the thread head
hash at append time, and the chain hash. -/
structure Hop where
  sequence_number : Nat
  fields : HopFields
  prev_hash : Nat
  hash : Nat
deriving DecidableEq, Repr

inductive ThreadStatus where
  | statusOpen
  | statusClosed
deriving DecidableEq, Repr

/-- The Thread entity of the spec's data model (section 3), restricted to
the fields the ledger operations touch. -/
structure Thread where
  id : String
  origin_type : String
  origin_identity : String
  intent : String
  constraints : List String
  status : ThreadStatus
  outcome : Option String
  hops : List Hop
  head_hash : Nat
deriving DecidableEq, Repr

/-- Verification result of the Chain Engine: `Valid` or
`Broken{at_sequence}`. -/
inductive VerifyResult where
  | Valid
  | Broken (at_sequence : Nat)
deriving DecidableEq, Repr

/-- Modelled from the spec: the Chain Engine's `verify`, recomputing every
hop hash from genesis, checking the stored hash and `prev_hash` link and
the contiguous 0-based sequence numbering, and reporting the first
divergent sequence number. -/
def verifyFrom (prev : Nat) (seq : Nat) : List Hop → VerifyResult
  | [] => .Valid
  | h :: rest =>
    if h.prev_hash = prev ∧ h.sequence_number = seq ∧
       h.hash = chainHash prev seq h.fields then
      verifyFrom h.hash (seq + 1) rest
    else .Broken seq

/-- Modelled from the spec: `verify_thread` delegates to the Chain Engine;
it is a pure function of the thread (no side effects, no mutation). -/
def verifyThread (t : Thread) : VerifyResult :=
  verifyFrom genesisHash 0 t.hops

/-- Modelled from the spec: `create_thread` fails with `ValidationError`
if `origin_type`, `origin_identity`, or `intent` is empty; otherwise
initializes `head_hash = genesis_hash`, `status = open`, no hops. -/
def createThread (id ot oi it : String) (cs : List String) :
    Except ServiceError Thread :=
  if ot = "" ∨ oi = "" ∨ it = "" then
    .error ⟨.validationError, "origin_type, origin_identity, or intent is empty"⟩
  else
    .ok ⟨id, ot, oi, it, cs, .statusOpen, none, [], genesisHash⟩

/-- Modelled from the spec: `add_hop` fails with `ThreadClosed` (a
`Conflict`) if the thread is not open; otherwise computes the hop hash via
the Chain Engine using the thread's current `head_hash` as `prev_hash`,
appends, and updates `head_hash`. -/
def addHop (t : Thread) (f : HopFields) : Except ServiceError (Thread × Hop) :=
  if t.status = .statusClosed then
    .error ⟨.conflict, "ThreadClosed"⟩
  else
    let seq := t.hops.length
    let h : Hop := ⟨seq, f, t.head_hash, chainHash t.head_hash seq f⟩
    .ok ({ t with hops := t.hops ++ [h], head_hash := h.hash }, h)

/-- Append a whole sequence of hops; a failing append leaves the thread
unchanged (it cannot fail on an open thread). -/
def appendAll (t : Thread) (fs : List HopFields) : Thread :=
  fs.foldl (fun t f => match addHop t f with
    | .ok (t', _) => t'
    | .error _ => t) t

/-! ## API-key middleware (`apiKeyAuth`, src/unnamed/part_000) -/

/-- JavaScript `String.prototype.replace` with a string pattern: replaces
only the FIRST occurrence of `pat` in `s` by `repl` (here over character
lists; `pat` is assumed non-empty, as in the source's `'Bearer '`). -/
def replaceFirstAux (pat repl : List Char) : List Char → List Char
  | [] => []
  | c :: rest =>
    if pat.isPrefixOf (c :: rest) then repl ++ (c :: rest).drop pat.length
    else c :: replaceFirstAux pat repl rest

def replaceFirst (s pat repl : String) : String :=
  ⟨replaceFirstAux pat.data repl.data s.data⟩

/-- JavaScript `a || b` on string-or-undefined values: `a` when truthy
(present and non-empty), otherwise `b`. -/
def jsOrStr (a b : Option String) : Option String :=
  match a with
  | some s => if s = "" then b else some s
  | none => b

inductive AuthOutcome where
  | unauthorized401
  | forbidden403
  | nextCalled
deriving DecidableEq, Repr

/-- The `apiKeyAuth` middleware: extracts the key from the `x-api-key`
header or (via JS `||`) from the `Authorization` header with the first
`"Bearer "` stripped; a falsy key gives 401, a key differing from
`process.env.WEAVE_API_KEY` (strict `!==`, `none` = variable unset) gives
403, and only an exact match reaches `next()`. -/
def apiKeyAuth (xApiKey authorization : Option String) (envKey : Option String) :
    AuthOutcome :=
  match jsOrStr xApiKey (authorization.map (replaceFirst · "Bearer " "")) with
  | none => .unauthorized401
  | some k =>
    if k = "" then .unauthorized401
    else if (some k : Option String) ≠ envKey then .forbidden403
    else .nextCalled

/-! ## Drift Detector

The Drift Detector implementation is likewise not among the sources (the
routes call `domere.checkDrift`), so it is modelled from the spec
(section 4.2): a deterministic, bounded lexical scorer behind the fixed
`compare(original_intent, current_intent, constraints) -> DriftReport`
contract, with per-constraint violation judgment and threshold-derived
verdicts. -/

inductive Verdict where
  | aligned
  | minor_drift
  | major_drift
deriving DecidableEq, Repr

structure DriftReport where
  score : ℚ
  violated_constraints : List String
  verdict : Verdict
deriving DecidableEq, Repr

/-- Verdict thresholds are configuration with documented defaults, not
hardcoded in the scorer. -/
structure DriftThresholds where
  aligned_below : ℚ
  major_above : ℚ
deriving DecidableEq, Repr

/-- The spec's documented default thresholds: score < 0.2 aligned,
0.2–0.6 minor, > 0.6 major. -/
def defaultThresholds : DriftThresholds := ⟨1/5, 3/5⟩

def verdictOf (cfg : DriftThresholds) (score : ℚ) : Verdict :=
  if score < cfg.aligned_below then .aligned
  else if score ≤ cfg.major_above then .minor_drift
  else .major_drift

/-- Whitespace word split used by the lexical scorer. -/
def intentWords (s : String) : List String :=
  (s.splitOn " ").filter (· ≠ "")

/-- Modelled from the spec: a deterministic lexical divergence score in
[0,1] — the fraction of word occurrences of either intent not matched in
the other (multiset symmetric difference over total length); identical
intents have no unmatched occurrence, hence score 0. -/
def driftScore (a b : String) : ℚ :=
  let wa := intentWords a
  let wb := intentWords b
  let d := (wa.diff wb).length + (wb.diff wa).length
  let tot := wa.length + wb.length
  if tot = 0 then 0 else (d : ℚ) / (tot : ℚ)

/-- Modelled from the spec: a constraint is judged not upheld when some of
its words is absent from the current intent — evaluated independently per
constraint. -/
def constraintUpheld (c cur : String) : Bool :=
  (intentWords c).all (· ∈ intentWords cur)

/-- Modelled from the spec: the Drift Detector's `compare` (exposed by the
service as `checkDrift`): score, the subset of violated constraints, and
the threshold-derived verdict. -/
def checkDrift (orig cur : String) (cs : List String) : DriftReport :=
  let s := driftScore orig cur
  ⟨s, cs.filter (fun c => ¬ constraintUpheld c cur), verdictOf defaultThresholds s⟩

/-- Inputs that vary between two runs of the same request: a random seed
and the current time. A scorer with hidden randomness would read them;
the compare pipeline is given them explicitly so that run-independence is
a statement, not a convention. -/
structure RunEnv where
  seed : Nat
  now : Nat
deriving DecidableEq, Repr

/-- One run of the drift check in a concrete run environment. The modelled
scorer consults no run-varying input. -/
def checkDriftRun (_env : RunEnv) (orig cur : String) (cs : List String) :
    DriftReport :=
  checkDrift orig cur cs

/-! ## Anchor submission

`submit_anchor` is modelled from the spec (section 4.4): it forwards the
already-signed transaction to the Network Adapter and fails with an
adapter/submission error on rejection, without retrying. The adapter's
`submit` capability is a function argument, and the model returns the
exact list of adapter invocations made, so "no retry" is the statement
that this list is a singleton. -/

/-- Record of one invocation of the Network Adapter's `submit`. -/
structure AdapterCall where
  network : String
  signed_tx : String
deriving DecidableEq, Repr

inductive AnchorStatus where
  | estimated
  | prepared
  | submitted
  | confirmed
  | failed
deriving DecidableEq, Repr

structure Anchor where
  network : String
  tx_ref : Option String
  status : AnchorStatus
deriving DecidableEq, Repr

/-- Modelled from the spec: `submit_anchor(network, signed_transaction)`:
one call to the adapter's `submit`; on acceptance an Anchor with
`status = submitted` and the returned `tx_ref`; on rejection an
`AdapterError` carrying the adapter's native detail, with no second
`submit` call. Returns the result together with the adapter-call trace. -/
def submitAnchor (adapterSubmit : String → String → Except String String)
    (network signed_tx : String) :
    Except ServiceError Anchor × List AdapterCall :=
  match adapterSubmit network signed_tx with
  | .ok ref => (.ok ⟨network, some ref, .submitted⟩, [⟨network, signed_tx⟩])
  | .error e => (.error ⟨.adapterError, e⟩, [⟨network, signed_tx⟩])

/-! ## Chain invariant

The well-formedness of a stored hop list relative to a starting hash and
sequence number, together with the thread's head hash: this is the spec's
section-3 invariant (`head_hash` equals the Chain Engine's recomputation;
`prev_hash` links; contiguous 0-based sequence numbers). -/

def ChainInv : Nat → Nat → List Hop → Nat → Prop
  | prev, _, [], head => head = prev
  | prev, seq, h :: rest, head =>
    h.prev_hash = prev ∧ h.sequence_number = seq ∧
    h.hash = chainHash prev seq h.fields ∧ ChainInv h.hash (seq + 1) rest head

end Weave

namespace Weave

/-! # Theorems -/

/-! ## Helper lemmas -/

theorem list_diff_self {α : Type} [DecidableEq α] (l : List α) : l.diff l = [] := by
  induction l with
  | nil => rfl
  | cons a l ih =>
    rw [List.diff_cons, List.erase_cons_head]
    exact ih

theorem chainInv_verifyFrom (hops : List Hop) :
    ∀ prev seq head, ChainInv prev seq hops head → verifyFrom prev seq hops = .Valid := by
  induction hops with
  | nil => intro prev seq head _; rfl
  | cons h rest ih =>
    intro prev seq head hinv
    obtain ⟨h1, h2, h3, h4⟩ := hinv
    unfold verifyFrom
    rw [if_pos ⟨h1, h2, h3⟩]
    exact ih _ _ _ h4

theorem chainInv_append (hops : List Hop) :
    ∀ prev seq head f, ChainInv prev seq hops head →
      ChainInv prev seq
        (hops ++ [⟨seq + hops.length, f, head, chainHash head (seq + hops.length) f⟩])
        (chainHash head (seq + hops.length) f) := by
  induction hops with
  | nil =>
    intro prev seq head f h
    subst h
    exact ⟨rfl, rfl, rfl, rfl⟩
  | cons h rest ih =>
    intro prev seq head f hinv
    obtain ⟨h1, h2, h3, h4⟩ := hinv
    have e : seq + 1 + rest.length = seq + (h :: rest).length := by
      simp [List.length_cons]; omega
    have step := ih h.hash (seq + 1) head f h4
    rw [e] at step
    exact ⟨h1, h2, h3, step⟩

theorem appendAll_inv (fs : List HopFields) :
    ∀ t : Thread, t.status = .statusOpen →
      ChainInv genesisHash 0 t.hops t.head_hash →
      (appendAll t fs).status = .statusOpen ∧
      ChainInv genesisHash 0 (appendAll t fs).hops (appendAll t fs).head_hash := by
  induction fs with
  | nil => intro t hopen hinv; exact ⟨hopen, hinv⟩
  | cons f fs ih =>
    intro t hopen hinv
    have hnotclosed : ¬ t.status = ThreadStatus.statusClosed := by
      rw [hopen]; intro hcontra; cases hcontra
    have hstep : appendAll t (f :: fs) =
        appendAll { t with
          hops := t.hops ++ [⟨t.hops.length, f, t.head_hash,
            chainHash t.head_hash t.hops.length f⟩],
          head_hash := chainHash t.head_hash t.hops.length f } fs := by
      simp only [appendAll, List.foldl_cons, addHop, if_neg hnotclosed]
    rw [hstep]
    apply ih
    · exact hopen
    · have := chainInv_append t.hops genesisHash 0 t.head_hash f hinv
      simpa using this

/-! ## Claim C2 -/

/-- C2: for every sequence of hops appended via `add_hop` to a freshly
created thread (no tampering in between), `verify_thread` — which
recomputes every hop hash from genesis and compares stored hashes and
`prev_hash` links, as a pure function with no side effects — returns
`Valid`. -/
theorem verify_fresh_thread_valid (id ot oi it : String) (cs : List String)
    (t : Thread) (fs : List HopFields)
    (h : createThread id ot oi it cs = .ok t) :
    verifyThread (appendAll t fs) = .Valid := by
  have ht : t = ⟨id, ot, oi, it, cs, .statusOpen, none, [], genesisHash⟩ := by
    unfold createThread at h
    by_cases hc : ot = "" ∨ oi = "" ∨ it = ""
    · rw [if_pos hc] at h; cases h
    · rw [if_neg hc] at h; cases h; rfl
  subst ht
  have hinv : ChainInv genesisHash 0
      ([] : List Hop) genesisHash := rfl
  have := appendAll_inv fs ⟨id, ot, oi, it, cs, .statusOpen, none, [], genesisHash⟩
    rfl hinv
  exact chainInv_verifyFrom _ _ _ _ this.2

/-- Witness for C2 at a concrete fresh thread and two concrete hops. -/
theorem verify_fresh_thread_valid_witness :
    verifyThread (appendAll
      ⟨"t1", "human", "alice", "summarize the document", ["never send data externally"],
        .statusOpen, none, [], genesisHash⟩
      [⟨"agent-1", "llm", "summarize the document", ["read"], 1⟩,
       ⟨"agent-2", "llm", "summarize and email", ["email"], 2⟩]) = .Valid :=
  verify_fresh_thread_valid "t1" "human" "alice" "summarize the document"
    ["never send data externally"] _ _ rfl

/-! ## Claim C3 -/

/-- C3: the create-thread boundary rejects with 400 — without forwarding
to the underlying thread creation — whenever `origin_type`,
`origin_identity`, or `intent` is missing or empty, and forwards the
request to thread creation whenever all three are non-empty. -/
theorem createStep_validation :
    (∀ b : CreateBody,
      (strFalsy b.origin_type ∨ strFalsy b.origin_identity ∨ strFalsy b.intent) →
      createStep b = .reject 400 createMsg) ∧
    (∀ ot oi it cs md, ot ≠ "" → oi ≠ "" → it ≠ "" →
      createStep ⟨some ot, some oi, some it, cs, md⟩ =
        .forward ⟨ot, oi, it, cs, md⟩) := by
  constructor
  · intro b hb
    unfold createStep
    have : (strFalsy b.origin_type || strFalsy b.origin_identity ||
        strFalsy b.intent) = true := by
      rcases hb with h | h | h <;> simp [h]
    rw [if_pos this]
  · intro ot oi it cs md hot hoi hit
    unfold createStep
    simp [strFalsy, hot, hoi, hit]

/-- Witness for C3: an empty intent is rejected; a fully populated body is
forwarded verbatim. -/
theorem createStep_validation_witness :
    createStep ⟨some "human", some "alice", some "", none, none⟩ =
      .reject 400 createMsg ∧
    createStep ⟨some "human", some "alice", some "summarize", some ["c1"], none⟩ =
      .forward ⟨"human", "alice", "summarize", some ["c1"], none⟩ :=
  ⟨createStep_validation.1 ⟨some "human", some "alice", some "", none, none⟩
      (Or.inr (Or.inr (by decide))),
   createStep_validation.2 "human" "alice" "summarize" (some ["c1"]) none
      (by decide) (by decide) (by decide)⟩

/-! ## Claim C6 -/

/-- C6: for every intent `I` and every constraint set `C`, comparing an
intent with itself yields a DriftReport whose score equals 0. -/
theorem checkDrift_self_score_zero (I : String) (C : List String) :
    (checkDrift I I C).score = 0 := by
  show driftScore I I = 0
  unfold driftScore
  simp only [list_diff_self, List.length_nil, Nat.add_zero, Nat.zero_add,
    Nat.cast_zero, zero_div, ite_self]

/-! ## Claim C7 -/

/-- C7: the drift scoring pipeline is deterministic — two runs on
identical inputs, in arbitrary run environments (seed, clock), produce
identical DriftReports (same score, same violated_constraints, same
verdict); the modelled scorer reads no run-varying input. -/
theorem checkDrift_deterministic (e1 e2 : RunEnv) (orig cur : String)
    (cs : List String) :
    checkDriftRun e1 orig cur cs = checkDriftRun e2 orig cur cs := rfl

/-! ## Case shapes of the route validation steps (helper lemmas) -/

theorem addHopStep_shape (id : String) (b : AddHopBody) :
    addHopStep id b = .reject 400 addHopMsg ∨
    ∃ args, addHopStep id b = .forward args := by
  unfold addHopStep
  split
  · exact Or.inl rfl
  · split
    · exact Or.inr ⟨_, rfl⟩
    · exact Or.inl rfl

theorem closeStep_shape (id : String) (o : Option String) :
    closeStep id o = .reject 400 closeMsg ∨
    ∃ args, closeStep id o = .forward args := by
  unfold closeStep
  split
  · exact Or.inl rfl
  · split
    · exact Or.inr ⟨_, rfl⟩
    · exact Or.inl rfl

theorem createStep_shape (b : CreateBody) :
    createStep b = .reject 400 createMsg ∨
    ∃ args, createStep b = .forward args := by
  unfold createStep
  split
  · exact Or.inl rfl
  · split
    · exact Or.inr ⟨_, rfl⟩
    · exact Or.inl rfl

theorem scanStep_shape (c : Option String) (ts : Option (List String)) :
    scanStep c ts = .reject 400 scanMsg ∨
    ∃ args, scanStep c ts = .forward args := by
  unfold scanStep
  split
  · exact Or.inl rfl
  · split
    · exact Or.inr ⟨_, rfl⟩
    · exact Or.inl rfl

/-! ## Claim C1 (corrected) -/

/-- C1 counterexample: a well-formed add-hop request for a thread the
service reports as NotFound is answered with status 500, not 404 — the
route's catch block maps every thrown error to 500, so the claimed 1:1
status/kind mapping fails. -/
theorem addHop_notFound_answered_500 :
    completeRoute
      (addHopStep "missing-thread"
        ⟨some "agent-1", some "llm", some "summarize", some ["read"]⟩)
      (.error ⟨.notFound, "Error: Thread not found"⟩ : Except ServiceError Hop) =
      .failure 500 [("error", "Error: Thread not found")] ∧ (500 : Nat) ≠ 404 :=
  ⟨rfl, by decide⟩

/-- C1 amended: the routes produce only statuses 200, 400 and 500:
boundary validation failures get 400, and every service-raised error —
whatever its kind, NotFound and Conflict included — is answered 500 with
the stringified message; no 404 or 409 is ever produced. -/
theorem domere_error_status_mapping :
    (∀ {α β : Type} (st : Step α) (args : α) (e : ServiceError),
      st = .forward args →
      completeRoute st (.error e : Except ServiceError β) =
        .failure 500 [("error", e.msg)]) ∧
    (∀ id (b : AddHopBody) (svc : Except ServiceError Hop) s bd,
      completeRoute (addHopStep id b) svc = .failure s bd → s = 400 ∨ s = 500) ∧
    (∀ id (o : Option String) (svc : Except ServiceError Thread) s bd,
      completeRoute (closeStep id o) svc = .failure s bd → s = 400 ∨ s = 500) ∧
    (∀ id (svc : Except ServiceError Thread) s bd,
      completeRoute (getThreadStep id) svc = .failure s bd → s = 500) := by
  refine ⟨?_, ?_, ?_, ?_⟩
  · intro α β st args e hst
    subst hst
    rfl
  · intro id b svc s bd h
    rcases addHopStep_shape id b with hs | ⟨args, hs⟩ <;> rw [hs] at h
    · cases h; exact Or.inl rfl
    · cases svc with
      | ok v => cases h
      | error e => cases h; exact Or.inr rfl
  · intro id o svc s bd h
    rcases closeStep_shape id o with hs | ⟨args, hs⟩ <;> rw [hs] at h
    · cases h; exact Or.inl rfl
    · cases svc with
      | ok v => cases h
      | error e => cases h; exact Or.inr rfl
  · intro id svc s bd h
    cases svc with
    | ok v => cases h
    | error e => cases h; rfl

/-- Witness for the amended C1: a Conflict raised by the service on a
well-formed close-style forward is answered 500. -/
theorem domere_error_status_mapping_witness :
    completeRoute
      (addHopStep "t1" ⟨some "agent-1", some "llm", some "summarize", some ["read"]⟩)
      (.error ⟨.conflict, "Error: Thread is closed"⟩ : Except ServiceError Hop) =
      .failure 500 [("error", "Error: Thread is closed")] :=
  domere_error_status_mapping.1
    (addHopStep "t1" ⟨some "agent-1", some "llm", some "summarize", some ["read"]⟩)
    ⟨"t1", "agent-1", "llm", "summarize", ["read"]⟩
    ⟨.conflict, "Error: Thread is closed"⟩ rfl

/-! ## Claim C4 (corrected) -/

/-- C4 counterexample: the create-thread validation failure responds 400
with the body `{error: "origin_type, origin_identity, and intent are
required"}`, which carries no machine-readable section-7 error kind in any
field — only the human-readable message. -/
theorem create_validation_lacks_error_kind :
    createStep ⟨none, none, none, none, none⟩ = .reject 400 createMsg ∧
    ¬ carriesErrorKind createMsg :=
  ⟨rfl, by decide⟩

/-- C4 amended: every error response of the exposed surface carries only a
human-readable message — a single `error` string field — with no separate
machine-readable error-kind field. -/
theorem error_responses_single_error_field :
    (∀ (b : CreateBody) (svc : Except ServiceError Thread) s bd,
      completeRoute (createStep b) svc = .failure s bd →
      ∃ m, bd = [("error", m)]) ∧
    (∀ (c : Option String) (ts : Option (List String)) {β : Type}
        (svc : Except ServiceError β) s bd,
      completeRoute (scanStep c ts) svc = .failure s bd →
      ∃ m, bd = [("error", m)]) := by
  constructor
  · intro b svc s bd h
    rcases createStep_shape b with hs | ⟨args, hs⟩ <;> rw [hs] at h
    · cases h; exact ⟨_, rfl⟩
    · cases svc with
      | ok v => cases h
      | error e => cases h; exact ⟨e.msg, rfl⟩
  · intro c ts β svc s bd h
    rcases scanStep_shape c ts with hs | ⟨args, hs⟩ <;> rw [hs] at h
    · cases h; exact ⟨_, rfl⟩
    · cases svc with
      | ok v => cases h
      | error e => cases h; exact ⟨e.msg, rfl⟩

/-- Witness for the amended C4 at the concrete empty create request. -/
theorem error_responses_single_error_field_witness :
    ∃ m, createMsg = [("error", m)] :=
  error_responses_single_error_field.1 ⟨none, none, none, none, none⟩
    (.error ⟨.internalError, "boom"⟩) 400 createMsg rfl

/-! ## Claim C5 -/

/-- C5: `submit_anchor` invokes the adapter's submit capability exactly
once per request — the adapter-call trace is the singleton of the given
network and signed transaction — and on adapter rejection it surfaces an
AdapterError with the adapter's detail, with no second invocation
(no retry); on acceptance it returns an Anchor with status submitted. -/
theorem submitAnchor_no_retry (f : String → String → Except String String)
    (n tx : String) :
    (submitAnchor f n tx).2 = [⟨n, tx⟩] ∧
    (∀ e, f n tx = .error e →
      (submitAnchor f n tx).1 = .error ⟨.adapterError, e⟩) ∧
    (∀ r, f n tx = .ok r →
      (submitAnchor f n tx).1 = .ok ⟨n, some r, .submitted⟩) := by
  refine ⟨?_, ?_, ?_⟩
  · unfold submitAnchor
    cases h : f n tx <;> rfl
  · intro e he
    simp [submitAnchor, he]
  · intro r hr
    simp [submitAnchor, hr]

/-- Witness for C5 with a concretely rejecting adapter. -/
theorem submitAnchor_no_retry_witness :
    (submitAnchor (fun _ _ => .error "malformed signature") "solana" "deadbeef").2 =
      [⟨"solana", "deadbeef"⟩] ∧
    (submitAnchor (fun _ _ => .error "malformed signature") "solana" "deadbeef").1 =
      .error ⟨.adapterError, "malformed signature"⟩ :=
  ⟨(submitAnchor_no_retry (fun _ _ => .error "malformed signature")
      "solana" "deadbeef").1,
   (submitAnchor_no_retry (fun _ _ => .error "malformed signature")
      "solana" "deadbeef").2.1 "malformed signature" rfl⟩

/-! ## Claim C8 -/

/-- C8: with `WEAVE_API_KEY` unset, the middleware authenticates nothing:
`next()` is never reached for any headers; a request with no key gets 401;
a request presenting a non-empty key — via `x-api-key` or via an
`Authorization` header whose value is non-empty after stripping the first
`"Bearer "` — gets 403, since the key is strictly compared against the
undefined environment value. -/
theorem apiKeyAuth_env_unset :
    (∀ xk auth, apiKeyAuth xk auth none ≠ .nextCalled) ∧
    (apiKeyAuth none none none = .unauthorized401) ∧
    (∀ k auth, k ≠ "" → apiKeyAuth (some k) auth none = .forbidden403) ∧
    (∀ a xk, (xk = none ∨ xk = some "") →
      replaceFirst a "Bearer " "" ≠ "" →
      apiKeyAuth xk (some a) none = .forbidden403) := by
  refine ⟨?_, rfl, ?_, ?_⟩
  · intro xk auth
    unfold apiKeyAuth
    split
    · intro h; cases h
    · next k _ =>
      by_cases hk : k = "" <;> simp [hk]
  · intro k auth hk
    unfold apiKeyAuth jsOrStr
    simp [hk]
  · intro a xk hxk ha
    unfold apiKeyAuth jsOrStr
    rcases hxk with h | h <;> subst h <;> simp [ha]

/-- Witness for C8: with the variable unset, the concrete key `"abc"` in
`x-api-key` and the concrete header `"Bearer xyz"` are both rejected with
403. -/
theorem apiKeyAuth_env_unset_witness :
    apiKeyAuth (some "abc") none none = .forbidden403 ∧
    apiKeyAuth none (some "Bearer xyz") none = .forbidden403 :=
  ⟨apiKeyAuth_env_unset.2.2.1 "abc" none (by decide),
   apiKeyAuth_env_unset.2.2.2 "Bearer xyz" none (Or.inl rfl) (by decide)⟩

/-! ## Claim C9 (corrected) -/

/-- C9 counterexample: a request whose `actions` field is the EMPTY array
(with all other fields populated) is NOT rejected — an empty array is
truthy in JavaScript, so the boundary forwards it to the ledger's
`add_hop`, contradicting the claim that an empty `actions` is rejected
with 400 without invoking `add_hop`. -/
theorem addHop_empty_actions_forwarded :
    addHopStep "t1" ⟨some "agent-1", some "llm", some "summarize", some []⟩ =
      .forward ⟨"t1", "agent-1", "llm", "summarize", []⟩ := rfl

/-- C9 amended: the add-hop boundary rejects with 400, without forwarding
to `add_hop`, every request in which `agent_id`, `agent_type`, or
`received_intent` is missing or empty, or `actions` is missing; when those
three strings are non-empty and `actions` is present — even as an empty
array — the request is forwarded. -/
theorem addHopStep_validation :
    (∀ id (b : AddHopBody),
      (strFalsy b.agent_id ∨ strFalsy b.agent_type ∨ strFalsy b.received_intent ∨
        b.actions = none) →
      addHopStep id b = .reject 400 addHopMsg) ∧
    (∀ id ai aty ri acts, ai ≠ "" → aty ≠ "" → ri ≠ "" →
      addHopStep id ⟨some ai, some aty, some ri, some acts⟩ =
        .forward ⟨id, ai, aty, ri, acts⟩) := by
  constructor
  · intro id b hb
    unfold addHopStep
    have : (strFalsy b.agent_id || strFalsy b.agent_type ||
        strFalsy b.received_intent || arrFalsy b.actions) = true := by
      rcases hb with h | h | h | h <;> simp [h, arrFalsy]
    rw [if_pos this]
  · intro id ai aty ri acts hai haty hri
    unfold addHopStep
    simp [strFalsy, arrFalsy, hai, haty, hri]

/-- Witness for the amended C9: a missing `received_intent` is rejected;
a populated body is forwarded. -/
theorem addHopStep_validation_witness :
    addHopStep "t1" ⟨some "agent-1", some "llm", none, some ["read"]⟩ =
      .reject 400 addHopMsg ∧
    addHopStep "t1" ⟨some "agent-1", some "llm", some "summarize", some ["read"]⟩ =
      .forward ⟨"t1", "agent-1", "llm", "summarize", ["read"]⟩ :=
  ⟨addHopStep_validation.1 "t1" ⟨some "agent-1", some "llm", none, some ["read"]⟩
      (Or.inr (Or.inr (Or.inl (by decide)))),
   addHopStep_validation.2 "t1" "agent-1" "llm" "summarize" ["read"]
      (by decide) (by decide) (by decide)⟩

/-! ## Claim C10 -/

/-- C10: the close-thread boundary does not restrict `outcome` to
{success, failure, abandoned}: every non-empty outcome string is forwarded
verbatim to `close_thread`. -/
theorem closeStep_forwards_any_outcome (id o : String) (h : o ≠ "") :
    closeStep id (some o) = .forward ⟨id, o⟩ := by
  unfold closeStep
  simp [strFalsy, h]

/-- Witness for C10: the out-of-enumeration outcome `"exploded"` is
forwarded verbatim. -/
theorem closeStep_forwards_any_outcome_witness :
    closeStep "t1" (some "exploded") = .forward ⟨"t1", "exploded"⟩ :=
  closeStep_forwards_any_outcome "t1" "exploded" (by decide)

end Weave
